import Mathlib

/-!
Verification of the OMP client core (omp.c / xml.c): a shallow embedding of
the XML entity tree, the streaming parser and transport reader loop, and the
protocol operations' response handling, together with proofs that settle the
specification claims about them.

The GLib GMarkup tokenizer is external to the repository; the byte-level
tokenizer below is modelled from the specification (a minimal streaming XML
tokenizer over elements, attributes and text), while the entity-building
event handlers, the reader loop's control flow, and every protocol
operation's response classification are translated directly from the source.
-/

namespace GvmLibs

/-- An XML entity (xml.h / xml.c): element name, accumulated text, an
optional attribute table (NULL in C until the first attribute is added, kept
as `none` here), and the ordered list of child entities. -/
inductive Entity : Type where
  | mk (name : String) (text : String)
       (attributes : Option (List (String × String)))
       (entities : List Entity) : Entity

/-- Field access: element name. -/
def Entity.name : Entity → String
  | .mk n _ _ _ => n

/-- Field access: accumulated text. -/
def Entity.text : Entity → String
  | .mk _ t _ _ => t

/-- Field access: the optional attribute table. -/
def Entity.attributes : Entity → Option (List (String × String))
  | .mk _ _ a _ => a

/-- Field access: the ordered children (the C `entities` GSList). -/
def Entity.entities : Entity → List Entity
  | .mk _ _ _ es => es

/-- GHashTable insert model (g_hash_table_insert): unique keys, an insert
with an existing key overwrites its value. -/
def hash_insert (m : List (String × String)) (k v : String) :
    List (String × String) :=
  if m.any (fun kv => kv.1 == k) then
    m.map (fun kv => if kv.1 == k then (k, v) else kv)
  else m ++ [(k, v)]

/-- GHashTable lookup model (g_hash_table_lookup). -/
def hash_lookup (m : List (String × String)) (k : String) : Option String :=
  (m.find? (fun kv => kv.1 == k)).map (fun kv => kv.2)

/-- entity_text (xml.c). -/
def entity_text (e : Entity) : String := e.text

/-- entity_name (xml.c). -/
def entity_name (e : Entity) : String := e.name

/-- entity_child (xml.c): the first direct child whose name matches exactly
(g_slist_find_custom with strcmp), else none. -/
def entity_child (e : Entity) (name : String) : Option Entity :=
  e.entities.find? (fun c => entity_name c == name)

/-- entity_attribute (xml.c): none when the attribute table is absent
(NULL) or the name is not present. -/
def entity_attribute (e : Entity) (name : String) : Option String :=
  match e.attributes with
  | none => none
  | some m => hash_lookup m name

/-- compare_find_attribute (xml.c): for one key/value pair of the first
table, report true ("a mismatch was found") unless the second table holds
the same key with an equal value. -/
def compare_find_attribute (k v : String)
    (attributes2 : List (String × String)) : Bool :=
  match hash_lookup attributes2 k with
  | some v2 => decide (v ≠ v2)
  | none => true

/-- The g_hash_table_find call in compare_entities: true iff some pair of
the first table mismatches the second table. -/
def attrs_mismatch (m1 m2 : List (String × String)) : Bool :=
  m1.any (fun kv => compare_find_attribute kv.1 kv.2 m2)

mutual

/-- compare_entities (xml.c) on two non-null entities: both attribute
tables NULL returns equal (0) at once; exactly one NULL is unequal (1);
otherwise names, texts, a one-directional attribute check, and the
children pairwise in order. -/
def compare_entities_nn : Entity → Entity → Int
  | .mk n1 t1 a1 es1, .mk n2 t2 a2 es2 =>
    match a1, a2 with
    | none, none => 0
    | none, some _ => 1
    | some _, none => 1
    | some m1, some m2 =>
      if n1 ≠ n2 then 1
      else if t1 ≠ t2 then 1
      else if attrs_mismatch m1 m2 then 1
      else compare_children es1 es2

/-- The child-comparison loop of compare_entities: pairwise recursive
comparison, then both lists must end together. -/
def compare_children : List Entity → List Entity → Int
  | [], [] => 0
  | [], _ :: _ => 1
  | _ :: _, [] => 1
  | e1 :: r1, e2 :: r2 =>
    if compare_entities_nn e1 e2 ≠ 0 then 1 else compare_children r1 r2

end

/-- compare_entities (xml.c) including the NULL-pointer cases. -/
def compare_entities : Option Entity → Option Entity → Int
  | none, none => 0
  | none, some _ => 1
  | some _, none => 1
  | some e1, some e2 => compare_entities_nn e1 e2

/-! ## Streaming parser and transport reader loop

The entity-building handlers (handle_start_element, handle_text,
handle_end_element of xml.c) are folded into a byte-at-a-time parse state.
An open element is a frame; handle_start_element pushes a frame carrying
the name, the attribute table built by add_attributes, empty text and no
children; handle_text concatenates onto the top frame's text; the end
handler pops the frame into an entity appended to the parent's children
(g_slist_append keeps document order), and marks done when the root pops.
The byte-level tokenizer itself replaces the external GMarkup tokenizer.
Modelled from the spec: a minimal streaming XML tokenizer over start tags
with attributes, end tags, self-closing tags and character data, tolerant
of arbitrary chunk boundaries, erroring on mismatched end tags. -/

/-- add_attributes (xml.c): the attribute table is created only when at
least one name/value pair is present (else it stays NULL), and pairs are
inserted in order with hash-table overwrite semantics. -/
def add_attributes (attrs : List (String × String)) :
    Option (List (String × String)) :=
  match attrs with
  | [] => none
  | _ => some (attrs.foldl (fun m kv => hash_insert m kv.1 kv.2) [])

/-- One open element under construction: its name, text so far, attribute
table, and completed children so far. -/
structure Frame where
  fname : String
  ftext : String
  fattrs : Option (List (String × String))
  fchildren : List Entity

/-- Close a frame into a completed entity. -/
def Frame.close (f : Frame) : Entity :=
  .mk f.fname f.ftext f.fattrs f.fchildren

/-- Tokenizer mode between bytes. -/
inductive TokState where
  | content
  | tagOpen
  | startName (acc : String)
  | inTag (name : String) (attrs : List (String × String))
  | attrName (name : String) (attrs : List (String × String)) (acc : String)
  | attrAfterName (name : String) (attrs : List (String × String))
      (aname : String)
  | attrAfterEq (name : String) (attrs : List (String × String))
      (aname : String)
  | attrValue (name : String) (attrs : List (String × String))
      (aname : String) (q : Char) (acc : String)
  | selfClose (name : String) (attrs : List (String × String))
  | endName (acc : String)
  | endAfterName (ename : String)

/-- The whole parse state: tokenizer mode, the stack of open frames
(innermost first — the context_data current list), the completed root, the
done flag of context_data, and a sticky tokenizer error flag. -/
structure PState where
  tok : TokState
  stack : List Frame
  root : Option Entity
  done : Bool
  err : Bool

/-- The fresh parse state of one read_entity call. -/
def initPState : PState :=
  { tok := .content, stack := [], root := none, done := false, err := false }

/-- XML whitespace. -/
def isSpaceChar (c : Char) : Bool :=
  c == ' ' || c == '\t' || c == '\n' || c == '\r'

/-- Characters accepted in element and attribute names. -/
def isNameChar (c : Char) : Bool :=
  c.isAlpha || c.isDigit || c == '_' || c == '-' || c == ':' || c == '.'

/-- handle_start_element (xml.c): create the entity with empty text and
the attribute table from add_attributes, and push it. -/
def open_element (s : PState) (name : String)
    (attrs : List (String × String)) : PState :=
  { s with tok := .content,
           stack := ⟨name, "", add_attributes attrs, []⟩ :: s.stack }

/-- handle_end_element (xml.c) combined with the tokenizer's tag-match
check: pop the top frame; when it was the root, record it and set done;
otherwise append it to its parent's children in document order. -/
def close_element (s : PState) (ename : String) : PState :=
  match s.stack with
  | [] => { s with err := true }
  | f :: fs =>
    if f.fname ≠ ename then { s with err := true }
    else
      match fs with
      | [] => { s with tok := .content, stack := [],
                       root := some f.close, done := true }
      | g :: gs =>
        { s with tok := .content,
                 stack := { g with fchildren := g.fchildren ++ [f.close] }
                          :: gs }

/-- A self-closing tag is a start event immediately followed by an end
event for the same name. -/
def self_close_element (s : PState) (name : String)
    (attrs : List (String × String)) : PState :=
  close_element (open_element s name attrs) name

/-- handle_text (xml.c): concatenate onto the text of the current
stack-top entity; character data outside any element is tolerated only as
whitespace. -/
def text_char (s : PState) (c : Char) : PState :=
  match s.stack with
  | [] => if isSpaceChar c then s else { s with err := true }
  | f :: fs => { s with stack := { f with ftext := f.ftext.push c } :: fs }

/-- Feed one byte to the tokenizer and handlers.  The error flag is
absorbing, as a GMarkup context stays failed once a chunk fails. -/
def step (s : PState) (c : Char) : PState :=
  if s.err then s else
  match s.tok with
  | .content =>
      if c == '<' then { s with tok := .tagOpen } else text_char s c
  | .tagOpen =>
      if c == '/' then { s with tok := .endName "" }
      else if isNameChar c then { s with tok := .startName (String.singleton c) }
      else { s with err := true }
  | .startName acc =>
      if isNameChar c then { s with tok := .startName (acc.push c) }
      else if isSpaceChar c then { s with tok := .inTag acc [] }
      else if c == '>' then open_element s acc []
      else if c == '/' then { s with tok := .selfClose acc [] }
      else { s with err := true }
  | .inTag name attrs =>
      if isSpaceChar c then s
      else if c == '>' then open_element s name attrs
      else if c == '/' then { s with tok := .selfClose name attrs }
      else if isNameChar c then
        { s with tok := .attrName name attrs (String.singleton c) }
      else { s with err := true }
  | .attrName name attrs acc =>
      if isNameChar c then { s with tok := .attrName name attrs (acc.push c) }
      else if c == '=' then { s with tok := .attrAfterEq name attrs acc }
      else if isSpaceChar c then { s with tok := .attrAfterName name attrs acc }
      else { s with err := true }
  | .attrAfterName name attrs aname =>
      if isSpaceChar c then s
      else if c == '=' then { s with tok := .attrAfterEq name attrs aname }
      else { s with err := true }
  | .attrAfterEq name attrs aname =>
      if isSpaceChar c then s
      else if c == '"' || c == '\x27' then
        { s with tok := .attrValue name attrs aname c "" }
      else { s with err := true }
  | .attrValue name attrs aname q acc =>
      if c == q then { s with tok := .inTag name (attrs ++ [(aname, acc)]) }
      else { s with tok := .attrValue name attrs aname q (acc.push c) }
  | .selfClose name attrs =>
      if c == '>' then self_close_element s name attrs
      else { s with err := true }
  | .endName acc =>
      if isNameChar c then { s with tok := .endName (acc.push c) }
      else if c == '>' then close_element s acc
      else if isSpaceChar c then { s with tok := .endAfterName acc }
      else { s with err := true }
  | .endAfterName ename =>
      if isSpaceChar c then s
      else if c == '>' then close_element s ename
      else { s with err := true }

/-- g_markup_parse_context_parse on one received chunk: the bytes are fed
to the tokenizer in the exact order received. -/
def feed (s : PState) (cs : List Char) : PState := cs.foldl step s

/-- One result of the gnutls_record_recv primitive, as scripted by a test
transport: a data chunk, a clean close (zero bytes), the two retryable
conditions, or a hard error. -/
inductive RecvItem where
  | data (cs : List Char)
  | closed
  | interrupted
  | rehandshake
  | herror

/-- read_entity / read_entity_and_text (xml.c) driven by a scripted
transport.  Returns the C return code paired with the out-parameter:
some (0, some root) on success, some (-1, none) on a hard read error,
some (-2, none) on a parse error, some (-3, none) on end of stream;
none when the script is exhausted (the C call would block forever).
GNUTLS_E_INTERRUPTED and GNUTLS_E_REHANDSHAKE retry the same read. -/
def read_entity_loop (s : PState) :
    List RecvItem → Option (Int × Option Entity)
  | [] => none
  | .interrupted :: rest => read_entity_loop s rest
  | .rehandshake :: rest => read_entity_loop s rest
  | .herror :: _ => some (-1, none)
  | .closed :: _ => some (-3, none)
  | .data cs :: rest =>
    let s2 := feed s cs
    if s2.err then some (-2, none)
    else if s2.done then some (0, s2.root)
    else read_entity_loop s2 rest

/-- A whole document is valid for one read_entity call when feeding it all
completes the root without a tokenizer error, and no proper prefix has
already completed it (the tree closes exactly at the last byte). -/
def validDoc (D : List Char) : Bool :=
  (feed initPState D).done && !(feed initPState D).err &&
    (List.range D.length).all (fun n => !(feed initPState (D.take n)).done)

/-! ## Protocol operations (omp.c)

Sending and receiving are external; each operation is embedded by the pure
function it applies to the one response entity it reads (and, where a claim
needs it, by the request string it sends). -/

/-- The first character of a status string (only consulted after the
emptiness check, as in the C `status[0]`). -/
def first_char (s : String) : Char := s.toList.headD ' '

/-- The status-attribute check shared textually by start_task, delete_task,
omp_create_target, omp_delete_target, omp_create_config and
omp_delete_config: absent or empty status is an error (-1), a status whose
first character is '2' is success (0), anything else is the generic
failure (-1). -/
def check_omp_status (e : Entity) : Int :=
  match entity_attribute e "status" with
  | none => -1
  | some s =>
    if s.length = 0 then -1
    else if first_char s = '2' then 0
    else -1

/-- start_task (omp.c): response classification. -/
def start_task (response : Entity) : Int := check_omp_status response

/-- delete_task (omp.c): response classification. -/
def delete_task (response : Entity) : Int := check_omp_status response

/-- omp_create_target (omp.c): response classification. -/
def omp_create_target (response : Entity) : Int := check_omp_status response

/-- omp_delete_target (omp.c): response classification. -/
def omp_delete_target (response : Entity) : Int := check_omp_status response

/-- omp_create_config (omp.c): response classification. -/
def omp_create_config (response : Entity) : Int := check_omp_status response

/-- omp_delete_config (omp.c): response classification. -/
def omp_delete_config (response : Entity) : Int := check_omp_status response

/-- omp_delete_task (omp.c): the response is freed and 0 returned with no
status inspection at all (the body carries a `FIX check status` comment). -/
def omp_delete_task (response : Entity) : Int := 0

/-- omp_modify_task (omp.c): the response is freed and 0 returned with no
status inspection at all (the body carries a `FIX check status` comment). -/
def omp_modify_task (response : Entity) : Int := 0

/-- The value of the leading decimal-digit run of a character list. -/
def digits_value : List Char → Nat → Nat
  | [], acc => acc
  | c :: cs, acc =>
    if c.isDigit then digits_value cs (acc * 10 + (c.toNat - 48)) else acc

/-- strtol with base 10: skip leading whitespace, optional sign, leading
digits; the returned long is clamped to the long range with an ERANGE
flag. -/
def strtol_long (s : String) : Int × Bool :=
  let l := s.toList.dropWhile isSpaceChar
  let signed : Int × Nat :=
    match l with
    | '-' :: rest => (-1, digits_value rest 0)
    | '+' :: rest => (1, digits_value rest 0)
    | _ => (1, digits_value l 0)
  let v : Int := signed.1 * (signed.2 : Int)
  if v > 2 ^ 63 - 1 then (2 ^ 63 - 1, true)
  else if v < -(2 ^ 63) then (-(2 ^ 63), true)
  else (v, false)

/-- The C cast of a long to int: wrap into the 32-bit signed range. -/
def int_cast (v : Int) : Int := (v + 2 ^ 31) % 2 ^ 32 - 2 ^ 31

/-- omp_get_status (omp.c): the result code paired with the out-parameter.
On a class-2 status the whole response entity is left with the caller; on
a numeric non-2xx status the entity is freed and the status code returned;
an absent or empty status attribute gives -1 with the entity freed. -/
def omp_get_status (response : Entity) : Int × Option Entity :=
  match entity_attribute response "status" with
  | none => (-1, none)
  | some s =>
    if s.length = 0 then (-1, none)
    else if first_char s = '2' then (0, some response)
    else
      let r := strtol_long s
      if r.2 then (-1, none) else (int_cast r.1, none)

/-- omp_get_report (omp.c): the response is handed to the caller and 0
returned with no status inspection at all (the body carries a
`FIX check status` comment). -/
def omp_get_report (response : Entity) : Int × Option Entity :=
  (0, some response)

/-- omp_get_preferences (omp.c): the response is handed to the caller and
0 returned with no status inspection at all (the body carries a
`FIX check status` comment). -/
def omp_get_preferences (response : Entity) : Int × Option Entity :=
  (0, some response)

/-- omp_get_certificates (omp.c): same classification as omp_get_status. -/
def omp_get_certificates (response : Entity) : Int × Option Entity :=
  match entity_attribute response "status" with
  | none => (-1, none)
  | some s =>
    if s.length = 0 then (-1, none)
    else if first_char s = '2' then (0, some response)
    else
      let r := strtol_long s
      if r.2 then (-1, none) else (int_cast r.1, none)

/-- The request string sent by omp_get_preferences (omp.c line 1008). -/
def omp_get_preferences_request : String := "<get_preferences/>"

/-- The request string sent by omp_get_certificates (omp.c line 1033). -/
def omp_get_certificates_request : String := "<get_preferences/>"

/-- create_task (omp.c): response handling.  The task_id child is looked
up with no status check; its absence is -1, otherwise a copy of its text
is stored in the id out-parameter and 0 returned. -/
def create_task (response : Entity) : Int × Option String :=
  match entity_child response "task_id" with
  | none => (-1, none)
  | some id_entity => (0, some (entity_text id_entity))

/-- omp_create_task (omp.c): identical response handling to create_task. -/
def omp_create_task (response : Entity) : Int × Option String :=
  match entity_child response "task_id" with
  | none => (-1, none)
  | some id_entity => (0, some (entity_text id_entity))

/-- The base64 alphabet of RFC 4648, as used by g_base64_encode. -/
def base64_alphabet : List Char :=
  "ABCDEFGHIJKLMNOPQRSTUVWXYZabcdefghijklmnopqrstuvwxyz0123456789+/".toList

/-- One base64 output character. -/
def b64c (n : Nat) : Char := base64_alphabet.getD n 'A'

/-- g_base64_encode over a byte list (external to the repository, standard
base64 with padding). -/
def g_base64_encode : List Nat → String
  | [] => ""
  | [a] =>
    String.mk [b64c (a / 4 % 64), b64c (a % 4 * 16), '=', '=']
  | [a, b] =>
    String.mk [b64c (a / 4 % 64), b64c (a % 4 * 16 + b / 16 % 16),
               b64c (b % 16 * 4), '=']
  | a :: b :: c :: rest =>
    String.mk [b64c (a / 4 % 64), b64c (a % 4 * 16 + b / 16 % 16),
               b64c (b % 16 * 4 + c / 64 % 4), b64c (c % 64)]
      ++ g_base64_encode rest

/-- strlen on a raw byte buffer: the length of the prefix before the first
NUL byte. -/
def c_strlen (bytes : List Nat) : Nat :=
  (bytes.takeWhile (fun b => b ≠ 0)).length

/-- The rcfile field value built by create_task and omp_create_config:
`strlen (config) ? g_base64_encode (config, config_len) : g_strdup ("")` —
the choice tests the C-string length, while config_len bounds the bytes
encoded. -/
def rcfile_field (config : List Nat) (config_len : Nat) : String :=
  if c_strlen config ≠ 0 then g_base64_encode (config.take config_len)
  else ""

/-- The request string built by create_task (omp.c). -/
def create_task_request (config : List Nat) (config_len : Nat)
    (name comment : String) : String :=
  "<create_task><rcfile>" ++ rcfile_field config config_len ++
    "</rcfile><name>" ++ name ++ "</name><comment>" ++ comment ++
    "</comment></create_task>"

/-- The request string built by omp_create_config (omp.c); the comment
element is present only when a comment is given. -/
def omp_create_config_request (name : String) (comment : Option String)
    (config : List Nat) (config_len : Nat) : String :=
  match comment with
  | some cm =>
    "<create_config><name>" ++ name ++ "</name><comment>" ++ cm ++
      "</comment><rcfile>" ++ rcfile_field config config_len ++
      "</rcfile></create_config>"
  | none =>
    "<create_config><name>" ++ name ++ "</name><rcfile>" ++
      rcfile_field config config_len ++ "</rcfile></create_config>"

/-! ## Shape C polling loops (omp.c)

Each loop is driven by the scripted list of response entities its repeated
get_status requests read back; the result is the C return code paired with
the number of one-second sleeps performed, and `none` when the script runs
out while the loop would still be polling. -/

/-- ASCII tolower, as used by strcasecmp. -/
def char_lower (c : Char) : Char :=
  if c.toNat ≥ 65 && c.toNat ≤ 90 then Char.ofNat (c.toNat + 32) else c

/-- strcasecmp equality (case-insensitive string comparison). -/
def strcasecmp_eq (a b : String) : Bool :=
  a.toList.map char_lower == b.toList.map char_lower

/-- Outcome of the DO_CHILDREN task search. -/
inductive TaskSearch where
  | err
  | notFound
  | found (r : String)

/-- The DO_CHILDREN search of wait_for_task_start, wait_for_task_end and
wait_for_task_stop (omp.c): walk the direct children in order; a child
whose name is "task" up to case is inspected — a missing id attribute
aborts with an error, an id equal to the target up to case stops the
search at this first match and yields its "status" child's text (missing
status child aborts with an error); other children are skipped. -/
def find_run_state (id : String) : List Entity → TaskSearch
  | [] => .notFound
  | child :: rest =>
    if strcasecmp_eq (entity_name child) "task" then
      match entity_attribute child "id" with
      | none => .err
      | some task_id =>
        if strcasecmp_eq task_id id then
          match entity_child child "status" with
          | none => .err
          | some st => .found (entity_text st)
        else find_run_state id rest
    else find_run_state id rest

/-- task_status (omp.c): the text of the "status" child of the first
direct "task" child — both looked up by entity_child, exactly and
case-sensitively, with no id-attribute filtering. -/
def task_status (response : Entity) : Option String :=
  match entity_child response "task" with
  | none => none
  | some task =>
    match entity_child task "status" with
    | none => none
    | some st => some (entity_text st)

/-- wait_for_task_end (omp.c) over scripted responses. -/
def wait_for_task_end (id : String) : List Entity → Option (Int × Nat)
  | [] => none
  | e :: rest =>
    match entity_attribute e "status" with
    | none => some (-1, 0)
    | some s =>
      if s.length = 0 then some (-1, 0)
      else if first_char s = '2' then
        match find_run_state id e.entities with
        | .err => some (-1, 0)
        | .notFound => some (-1, 0)
        | .found r =>
          if r = "Done" then some (0, 0)
          else if r = "Internal Error" then some (1, 0)
          else if r = "Stopped" then some (1, 0)
          else (wait_for_task_end id rest).map (fun p => (p.1, p.2 + 1))
      else (wait_for_task_end id rest).map (fun p => (p.1, p.2 + 1))

/-- wait_for_task_start (omp.c) over scripted responses. -/
def wait_for_task_start (id : String) : List Entity → Option (Int × Nat)
  | [] => none
  | e :: rest =>
    match entity_attribute e "status" with
    | none => some (-1, 0)
    | some s =>
      if s.length = 0 then some (-1, 0)
      else if first_char s = '2' then
        match find_run_state id e.entities with
        | .err => some (-1, 0)
        | .notFound => some (-1, 0)
        | .found r =>
          if r = "Running" then some (0, 0)
          else if r = "Done" then some (0, 0)
          else if r = "Internal Error" then some (1, 0)
          else (wait_for_task_start id rest).map (fun p => (p.1, p.2 + 1))
      else (wait_for_task_start id rest).map (fun p => (p.1, p.2 + 1))

/-- wait_for_task_stop (omp.c) over scripted responses; a missing matching
task yields the distinct code -2. -/
def wait_for_task_stop (id : String) : List Entity → Option (Int × Nat)
  | [] => none
  | e :: rest =>
    match entity_attribute e "status" with
    | none => some (-1, 0)
    | some s =>
      if s.length = 0 then some (-1, 0)
      else if first_char s = '2' then
        match find_run_state id e.entities with
        | .err => some (-1, 0)
        | .notFound => some (-2, 0)
        | .found r =>
          if r = "Stopped" then some (0, 0)
          else if r = "Done" then some (0, 0)
          else if r = "Internal Error" then some (1, 0)
          else (wait_for_task_stop id rest).map (fun p => (p.1, p.2 + 1))
      else (wait_for_task_stop id rest).map (fun p => (p.1, p.2 + 1))

/-- wait_for_task_delete (omp.c) over scripted responses: when task_status
finds no status text the loop breaks and returns 0, otherwise it sleeps
and retries. -/
def wait_for_task_delete (id : String) : List Entity → Option (Int × Nat)
  | [] => none
  | e :: rest =>
    match task_status e with
    | none => some (0, 0)
    | some _ => (wait_for_task_delete id rest).map (fun p => (p.1, p.2 + 1))

/-! ## Helper lemmas -/

/-- The tokenizer error flag is absorbing for a single byte. -/
theorem step_of_err (s : PState) (c : Char) (h : s.err = true) :
    step s c = s := by
  simp [step, h]

/-- Feeding a chunk after `c` equals stepping then feeding. -/
theorem feed_cons (s : PState) (c : Char) (cs : List Char) :
    feed s (c :: cs) = feed (step s c) cs := rfl

/-- The tokenizer error flag is absorbing for a whole chunk. -/
theorem feed_of_err (s : PState) (cs : List Char) (h : s.err = true) :
    feed s cs = s := by
  induction cs generalizing s with
  | nil => rfl
  | cons c cs ih => rw [feed_cons, step_of_err s c h]; exact ih s h

/-- Bytes are fed in order: feeding a concatenation is feeding the parts
in sequence. -/
theorem feed_append (s : PState) (a b : List Char) :
    feed s (a ++ b) = feed (feed s a) b :=
  List.foldl_append step s a b

/-- Main lemma for chunk independence: from any proper-prefix state of a
valid document, consuming the remaining chunks gives the same outcome as
the one-chunk read. -/
theorem read_loop_prefix (D : List Char)
    (herr : (feed initPState D).err = false)
    (hpre : ∀ n, n < D.length → (feed initPState (D.take n)).done = false) :
    ∀ (chunks : List (List Char)) (p : List Char),
      chunks ≠ [] → p ++ chunks.join = D → (∀ c ∈ chunks, c ≠ []) →
      read_entity_loop (feed initPState p) (chunks.map RecvItem.data)
        = read_entity_loop initPState [RecvItem.data D] := by
  intro chunks
  induction chunks with
  | nil => intro p hne _ _; exact absurd rfl hne
  | cons c rest ih =>
    intro p _ hjoin hmem
    have hpc : feed (feed initPState p) c = feed initPState (p ++ c) :=
      (feed_append initPState p c).symm
    match rest, ih with
    | [], _ =>
      have hD : p ++ c = D := by simpa using hjoin
      show read_entity_loop (feed initPState p) [RecvItem.data c]
          = read_entity_loop initPState [RecvItem.data D]
      simp only [read_entity_loop, hpc, hD]
    | c2 :: rest2, ih =>
      have hj2 : (p ++ c) ++ (c2 :: rest2).join = D := by
        simpa [List.append_assoc] using hjoin
      have hcne : (c2 :: rest2).join ≠ [] := by
        have h1 : c2 ≠ [] := hmem c2 (by simp)
        simp only [List.join_cons, ne_eq, List.append_eq_nil]
        intro h
        exact h1 h.1
      have hlt : (p ++ c).length < D.length := by
        rw [← hj2]
        simp only [List.length_append]
        have := List.length_pos.mpr hcne
        omega
      have htake : D.take (p ++ c).length = p ++ c := by
        rw [← hj2]
        exact List.take_left (p ++ c) (c2 :: rest2).join
      have hdone2 : (feed initPState (p ++ c)).done = false := by
        have h := hpre (p ++ c).length hlt
        rwa [htake] at h
      have herr2 : (feed initPState (p ++ c)).err = false := by
        by_contra hcon
        have h' : (feed initPState (p ++ c)).err = true := by
          simpa using hcon
        have hEq : feed initPState D = feed initPState (p ++ c) := by
          rw [← hj2, feed_append, feed_of_err _ _ h']
        rw [hEq, h'] at herr
        exact Bool.noConfusion herr
      show read_entity_loop (feed initPState p)
          (RecvItem.data c :: (c2 :: rest2).map RecvItem.data)
          = read_entity_loop initPState [RecvItem.data D]
      simp only [read_entity_loop, hpc, herr2, hdone2]
      simp only [Bool.false_eq_true, if_false]
      exact ih (p ++ c) (by simp) hj2 (fun x hx => hmem x (by simp [hx]))

/-! ## Claims -/

/-- Claim C4: for every valid XML document D and every partition of D's
bytes into consecutive non-empty chunks, feeding the chunks in order
through the reader loop to the parser callbacks produces an entity tree
identical to the tree produced by feeding D as one chunk. -/
theorem read_chunk_independence (D : List Char) (chunks : List (List Char))
    (hjoin : chunks.join = D)
    (hne : chunks.all (fun c => !c.isEmpty) = true)
    (hvalid : validDoc D = true) :
    read_entity_loop initPState (chunks.map RecvItem.data)
      = read_entity_loop initPState [RecvItem.data D] := by
  rw [validDoc, Bool.and_eq_true, Bool.and_eq_true] at hvalid
  obtain ⟨⟨hdone, herr'⟩, hall⟩ := hvalid
  have herr : (feed initPState D).err = false := by
    simpa using herr'
  have hpre : ∀ n, n < D.length → (feed initPState (D.take n)).done = false := by
    intro n hn
    have h := List.all_eq_true.mp hall (n : ℕ) (List.mem_range.mpr hn)
    simpa using h
  have hmem : ∀ c ∈ chunks, c ≠ [] := by
    intro c hc
    have h := List.all_eq_true.mp hne c hc
    simpa [List.isEmpty_iff] using h
  have hcne : chunks ≠ [] := by
    rintro rfl
    simp only [List.join] at hjoin
    rw [← hjoin] at hdone
    exact Bool.noConfusion hdone
  have h := read_loop_prefix D herr hpre chunks [] hcne (by simpa using hjoin)
    hmem
  simpa [feed] using h

/-- The spec's concrete chunk-independence example document. -/
def c4_doc : List Char := "<a x=\"1\"><b>hi</b><c>there</c></a>".toList

/-- The byte-at-a-time partition of the example document. -/
def c4_chunks : List (List Char) := c4_doc.map (fun c => [c])

/-- Witness for C4: the example document is valid, its byte-at-a-time
partition is a non-empty-chunk partition, and the chunked read equals the
one-chunk read. -/
theorem read_chunk_independence_witness :
    (c4_chunks.join = c4_doc ∧ c4_chunks.all (fun c => !c.isEmpty) = true ∧
      validDoc c4_doc = true) ∧
    read_entity_loop initPState (c4_chunks.map RecvItem.data)
      = read_entity_loop initPState [RecvItem.data c4_doc] :=
  ⟨⟨by decide, by decide, by decide⟩,
   read_chunk_independence c4_doc c4_chunks (by decide) (by decide)
     (by decide)⟩

/-- Claim C5: in the reader loop an interrupted or rehandshake receive
retries the very same read and is never surfaced as a failure; a zero-byte
receive returns end-of-stream (-3) with no entity, even mid-construction;
a hard receive error returns the read error (-1) with no entity; in
particular a transport delivering only "<a><b>" then closing yields -3 and
no tree, with two elements still open at the close. -/
theorem read_entity_retry_eof_error :
    (∀ s rest, read_entity_loop s (RecvItem.interrupted :: rest)
        = read_entity_loop s rest) ∧
    (∀ s rest, read_entity_loop s (RecvItem.rehandshake :: rest)
        = read_entity_loop s rest) ∧
    (∀ s rest, read_entity_loop s (RecvItem.closed :: rest)
        = some (-3, none)) ∧
    (∀ s rest, read_entity_loop s (RecvItem.herror :: rest)
        = some (-1, none)) ∧
    read_entity_loop initPState [RecvItem.data "<a><b>".toList,
        RecvItem.closed] = some (-3, none) ∧
    (feed initPState "<a><b>".toList).stack.length = 2 :=
  ⟨fun _ _ => rfl, fun _ _ => rfl, fun _ _ => rfl, fun _ _ => rfl,
   rfl, by decide⟩

/-- Claim C1: the Shape A status rule — absent or empty status is an
error, first character '2' is success 0, anything else a failure — holds
for start_task, delete_task and the target/config operations, but
omp_delete_task and omp_modify_task return 0 with no status inspection at
all, so a non-2xx (even statusless) response is reported as success there,
against their own documented return contract and `FIX check status`
notes. -/
theorem shape_a_status_check_evaluation :
    omp_delete_task (.mk "delete_task_response" ""
      (some [("status", "400")]) []) = 0 ∧
    omp_modify_task (.mk "modify_task_response" ""
      (some [("status", "400")]) []) = 0 ∧
    omp_delete_task (.mk "delete_task_response" "" none []) = 0 ∧
    first_char "400" ≠ '2' ∧
    start_task (.mk "start_task_response" ""
      (some [("status", "400")]) []) = -1 ∧
    start_task (.mk "start_task_response" ""
      (some [("status", "200")]) []) = 0 ∧
    start_task (.mk "start_task_response" "" (some [("status", "")]) []) = -1 ∧
    start_task (.mk "start_task_response" "" none []) = -1 ∧
    delete_task (.mk "delete_task_response" ""
      (some [("status", "400")]) []) = -1 ∧
    omp_create_target (.mk "create_target_response" ""
      (some [("status", "400")]) []) = -1 ∧
    omp_delete_target (.mk "delete_target_response" ""
      (some [("status", "503")]) []) = -1 ∧
    omp_create_config (.mk "create_config_response" ""
      (some [("status", "400")]) []) = -1 ∧
    omp_delete_config (.mk "delete_config_response" ""
      (some [("status", "503")]) []) = -1 :=
  ⟨rfl, rfl, rfl, by decide, rfl, rfl, rfl, rfl, rfl, rfl, rfl, rfl, rfl⟩

/-- Claim C2: omp_get_status and omp_get_certificates classify the status
attribute — '2' keeps the entity with the caller and returns 0, a numeric
non-2xx status frees it and returns that code, absent or empty yields the
distinct format error -1 — but omp_get_report and omp_get_preferences
return 0 and hand over the entity with no status inspection at all (their
bodies carry `FIX check status` notes), so a 400 response is reported as
success there. -/
theorem get_operations_status_evaluation :
    omp_get_report (.mk "get_report_response" ""
        (some [("status", "400")]) [])
      = (0, some (.mk "get_report_response" ""
        (some [("status", "400")]) [])) ∧
    omp_get_preferences (.mk "get_preferences_response" ""
        (some [("status", "400")]) [])
      = (0, some (.mk "get_preferences_response" ""
        (some [("status", "400")]) [])) ∧
    omp_get_status (.mk "r" "" (some [("status", "200")]) [])
      = (0, some (.mk "r" "" (some [("status", "200")]) [])) ∧
    omp_get_status (.mk "r" "" (some [("status", "201")]) [])
      = (0, some (.mk "r" "" (some [("status", "201")]) [])) ∧
    omp_get_status (.mk "r" "" (some [("status", "400")]) [])
      = (400, none) ∧
    omp_get_status (.mk "r" "" (some [("status", "503")]) [])
      = (503, none) ∧
    omp_get_status (.mk "r" "" (some [("status", "")]) []) = (-1, none) ∧
    omp_get_status (.mk "r" "" none []) = (-1, none) ∧
    omp_get_certificates (.mk "r" "" (some [("status", "200")]) [])
      = (0, some (.mk "r" "" (some [("status", "200")]) [])) ∧
    omp_get_certificates (.mk "r" "" (some [("status", "400")]) [])
      = (400, none) ∧
    omp_get_certificates (.mk "r" "" (some [("status", "")]) [])
      = (-1, none) ∧
    omp_get_certificates (.mk "r" "" none []) = (-1, none) :=
  ⟨rfl, rfl, rfl, rfl, rfl, rfl, rfl, rfl, rfl, rfl, rfl, rfl⟩

/-- Claim C3, counterexample: compare_entities reports two entities with
different names as equal (0) because both attribute tables are absent —
the both-NULL attribute case returns equal before any name, text or child
comparison. -/
theorem compare_entities_name_blind :
    compare_entities (some (.mk "a" "ta" none [.mk "child" "" none []]))
      (some (.mk "b" "tb" none [])) = 0 ∧
    ("a" : String) ≠ "b" :=
  ⟨rfl, by decide⟩

/-- One pair's check in the attribute walk succeeds exactly on an equal
value under the same key. -/
theorem compare_find_attribute_eq_false (k v : String)
    (m2 : List (String × String)) :
    compare_find_attribute k v m2 = false ↔ hash_lookup m2 k = some v := by
  unfold compare_find_attribute
  cases h : hash_lookup m2 k with
  | none => simp
  | some v2 =>
    simp only [decide_eq_false_iff_not, not_not, Option.some.injEq]
    constructor
    · intro h1; exact h1.symm
    · intro h1; exact h1.symm

/-- The child loop returns equal exactly on equal lengths with pairwise
equal elements. -/
theorem compare_children_eq_zero (l1 l2 : List Entity) :
    compare_children l1 l2 = 0 ↔
      l1.length = l2.length ∧
        ∀ p ∈ l1.zip l2, compare_entities_nn p.1 p.2 = 0 := by
  induction l1 generalizing l2 with
  | nil =>
    cases l2 with
    | nil => simp [compare_children]
    | cons e2 r2 => simp [compare_children]
  | cons e1 r1 ih =>
    cases l2 with
    | nil => simp [compare_children]
    | cons e2 r2 =>
      by_cases h : compare_entities_nn e1 e2 = 0
      · rw [compare_children, if_neg (by simpa using h), ih r2]
        simp only [List.length_cons, List.zip_cons_cons, List.mem_cons,
          add_left_inj]
        constructor
        · rintro ⟨hl, hp⟩
          refine ⟨hl, ?_⟩
          rintro p (hpe | hpr)
          · subst hpe; exact h
          · exact hp p hpr
        · rintro ⟨hl, hp⟩
          exact ⟨hl, fun p hpr => hp p (Or.inr hpr)⟩
      · rw [compare_children, if_pos (by simpa using h)]
        simp only [List.zip_cons_cons, List.length_cons]
        constructor
        · intro h1; exact absurd h1 (by decide)
        · rintro ⟨-, hp⟩
          exact absurd (hp (e1, e2) (by simp)) h

/-- Claim C3, amended: compare_entities reports equality by this rule —
two NULLs are equal and NULL differs from non-NULL; two absent attribute
tables are equal at once, regardless of names, texts or children; an
absent table differs from a present one; with both tables present the
entities are equal iff the names match, the texts match, every attribute
of the first is present in the second with an equal value (the second may
carry extras), and the children are pairwise equal in document order with
equal count. -/
theorem compare_entities_characterisation :
    compare_entities none none = 0 ∧
    (∀ e, compare_entities none (some e) = 1 ∧
      compare_entities (some e) none = 1) ∧
    (∀ n1 t1 es1 n2 t2 es2,
      compare_entities_nn (.mk n1 t1 none es1) (.mk n2 t2 none es2) = 0) ∧
    (∀ n1 t1 es1 n2 t2 m2 es2,
      compare_entities_nn (.mk n1 t1 none es1)
        (.mk n2 t2 (some m2) es2) = 1 ∧
      compare_entities_nn (.mk n2 t2 (some m2) es2)
        (.mk n1 t1 none es1) = 1) ∧
    (∀ n1 t1 m1 es1 n2 t2 m2 es2,
      compare_entities_nn (.mk n1 t1 (some m1) es1)
          (.mk n2 t2 (some m2) es2) = 0 ↔
        n1 = n2 ∧ t1 = t2 ∧ attrs_mismatch m1 m2 = false ∧
          es1.length = es2.length ∧
          ∀ p ∈ es1.zip es2, compare_entities_nn p.1 p.2 = 0) ∧
    (∀ m1 m2, attrs_mismatch m1 m2 = false ↔
      ∀ kv ∈ m1, hash_lookup m2 kv.1 = some kv.2) := by
  refine ⟨rfl, fun e => ⟨rfl, rfl⟩, fun _ _ _ _ _ _ => by
    rw [compare_entities_nn], fun _ _ _ _ _ _ _ => ⟨by
    rw [compare_entities_nn], by rw [compare_entities_nn]⟩, ?_, ?_⟩
  · intro n1 t1 m1 es1 n2 t2 m2 es2
    rw [compare_entities_nn]
    by_cases h1 : n1 = n2
    · by_cases h2 : t1 = t2
      · by_cases h3 : attrs_mismatch m1 m2
        · simp [h1, h2, h3]
        · simp only [h1, h2, h3]
          simp only [ne_eq, not_true_eq_false, if_false, Bool.false_eq_true,
            if_false]
          rw [compare_children_eq_zero]
          simp [Bool.eq_false_iff, h3]
      · simp [h1, h2]
    · simp [h1]
  · intro m1 m2
    unfold attrs_mismatch
    rw [List.any_eq_false]
    constructor
    · intro h kv hkv
      have h2 : compare_find_attribute kv.1 kv.2 m2 = false :=
        Bool.eq_false_iff.mpr (h kv hkv)
      exact (compare_find_attribute_eq_false kv.1 kv.2 m2).mp h2
    · intro h kv hkv
      have h2 := (compare_find_attribute_eq_false kv.1 kv.2 m2).mpr (h kv hkv)
      simp [h2]

/-- Witness for the amended C3: the characterisation applied to two
attribute-less entities with different names gives equality (0). -/
theorem compare_entities_characterisation_witness :
    compare_entities_nn (.mk "a" "ta" none []) (.mk "b" "tb" none []) = 0 :=
  compare_entities_characterisation.2.2.1 "a" "ta" [] "b" "tb" []

/-- Witness for C5: an interrupted receive followed by a clean close ends
as end-of-stream with no entity. -/
theorem read_entity_retry_eof_error_witness :
    read_entity_loop initPState [RecvItem.interrupted, RecvItem.closed]
      = some (-3, none) :=
  (read_entity_retry_eof_error.1 initPState [RecvItem.closed]).trans
    (read_entity_retry_eof_error.2.2.1 initPState [])

/-- Claim C6, counterexample: create_task returns success (0) with the id
extracted from a response whose status attribute is "400", a non-2xx
status — no status check precedes the task_id extraction. -/
theorem create_task_ignores_status :
    create_task (.mk "create_task_response" "" (some [("status", "400")])
      [.mk "task_id" "X" none []]) = (0, some "X") ∧
    omp_create_task (.mk "create_task_response" ""
      (some [("status", "400")]) [.mk "task_id" "X" none []])
      = (0, some "X") ∧
    entity_attribute (.mk "create_task_response" ""
      (some [("status", "400")]) [.mk "task_id" "X" none []]) "status"
      = some "400" ∧
    first_char "400" ≠ '2' :=
  ⟨rfl, rfl, rfl, by decide⟩

/-- Claim C6, amended: create_task and omp_create_task perform no status
check at all; absence of the task_id child yields -1, presence yields 0
with a copy of the child's text stored in the id out-parameter, and the
result depends only on the task_id lookup, regardless of the status
attribute. -/
theorem create_task_id_extraction :
    (∀ e, entity_child e "task_id" = none →
      create_task e = (-1, none) ∧ omp_create_task e = (-1, none)) ∧
    (∀ e t, entity_child e "task_id" = some t →
      create_task e = (0, some (entity_text t)) ∧
      omp_create_task e = (0, some (entity_text t))) ∧
    (∀ e1 e2, entity_child e1 "task_id" = entity_child e2 "task_id" →
      create_task e1 = create_task e2 ∧
      omp_create_task e1 = omp_create_task e2) := by
  refine ⟨?_, ?_, ?_⟩
  · intro e h
    constructor
    · rw [create_task, h]
    · rw [omp_create_task, h]
  · intro e t h
    constructor
    · rw [create_task, h]
    · rw [omp_create_task, h]
  · intro e1 e2 h
    constructor
    · rw [create_task, create_task, h]
    · rw [omp_create_task, omp_create_task, h]

/-- Witness for the amended C6: a response with no task_id child yields -1
from both operations. -/
theorem create_task_id_extraction_witness :
    entity_child (.mk "create_task_response" ""
      (some [("status", "200")]) []) "task_id" = none ∧
    create_task (.mk "create_task_response" ""
      (some [("status", "200")]) []) = (-1, none) ∧
    omp_create_task (.mk "create_task_response" ""
      (some [("status", "200")]) []) = (-1, none) :=
  ⟨rfl,
   (create_task_id_extraction.1 (.mk "create_task_response" ""
     (some [("status", "200")]) []) rfl).1,
   (create_task_id_extraction.1 (.mk "create_task_response" ""
     (some [("status", "200")]) []) rfl).2⟩

/-- A canonical get_status response for a single task: outer status
"200", one task child carrying the id attribute and a status child whose
text is the run state. -/
def mk_status_response (id run_state : String) : Entity :=
  .mk "get_status_response" "" (some [("status", "200")])
    [.mk "task" "" (some [("id", id)]) [.mk "status" run_state none []]]

/-- The search finds the run state in a canonical response. -/
theorem find_run_state_canonical (id run_state : String) :
    find_run_state id [Entity.mk "task" "" (some [("id", id)])
      [.mk "status" run_state none []]] = .found run_state := by
  rw [find_run_state]
  simp [strcasecmp_eq, entity_name, entity_attribute, hash_lookup,
    entity_child, entity_text, Entity.name, Entity.attributes,
    Entity.entities, Entity.text, List.find?]

/-- A canonical response's status attribute lookup. -/
theorem mk_status_response_attr (id run_state : String) :
    entity_attribute (mk_status_response id run_state) "status"
      = some "200" := rfl

/-- Claim C7: wait_for_task_end returns 0 on run state "Done", 1 on
"Internal Error" or "Stopped", sleeps once and retries on any other run
state, errors (-1) when the matching task child is missing, and on the
scripted sequence Requested, Running, Done sleeps twice and returns 0. -/
theorem wait_for_task_end_classification :
    (∀ id rest, wait_for_task_end id
      (mk_status_response id "Done" :: rest) = some (0, 0)) ∧
    (∀ id rest, wait_for_task_end id
      (mk_status_response id "Internal Error" :: rest) = some (1, 0)) ∧
    (∀ id rest, wait_for_task_end id
      (mk_status_response id "Stopped" :: rest) = some (1, 0)) ∧
    (∀ id rest r, r ≠ "Done" → r ≠ "Internal Error" → r ≠ "Stopped" →
      wait_for_task_end id (mk_status_response id r :: rest)
        = (wait_for_task_end id rest).map (fun p => (p.1, p.2 + 1))) ∧
    (∀ id rest, wait_for_task_end id
      (Entity.mk "get_status_response" "" (some [("status", "200")]) []
        :: rest) = some (-1, 0)) ∧
    wait_for_task_end "t1" [mk_status_response "t1" "Requested",
      mk_status_response "t1" "Running", mk_status_response "t1" "Done"]
      = some (0, 2) := by
  have hstep : ∀ id (rest : List Entity) r,
      wait_for_task_end id (mk_status_response id r :: rest)
        = if r = "Done" then some (0, 0)
          else if r = "Internal Error" then some (1, 0)
          else if r = "Stopped" then some (1, 0)
          else (wait_for_task_end id rest).map
            (fun p => (p.1, p.2 + 1)) := by
    intro id rest r
    rw [wait_for_task_end, mk_status_response_attr]
    show (if ("200" : String).length = 0 then some (-1, 0) else _) = _
    rw [if_neg (by decide), if_pos (by decide)]
    show (match find_run_state id (mk_status_response id r).entities
      with
      | .err => some (-1, 0)
      | .notFound => some (-1, 0)
      | .found r => _) = _
    have : (mk_status_response id r).entities
        = [Entity.mk "task" "" (some [("id", id)])
            [.mk "status" r none []]] := rfl
    rw [this, find_run_state_canonical]
  refine ⟨?_, ?_, ?_, ?_, ?_, ?_⟩
  · intro id rest; rw [hstep]; simp
  · intro id rest; rw [hstep]; simp
  · intro id rest; rw [hstep]; simp
  · intro id rest r h1 h2 h3; rw [hstep]; simp [h1, h2, h3]
  · intro id rest
    rw [wait_for_task_end]
    rfl
  · rfl

/-- Witness for C7: "Requested" is none of the three terminal run states,
and a Requested response sleeps once and defers to the rest of the
script. -/
theorem wait_for_task_end_classification_witness :
    (("Requested" : String) ≠ "Done" ∧
      ("Requested" : String) ≠ "Internal Error" ∧
      ("Requested" : String) ≠ "Stopped") ∧
    wait_for_task_end "t1" [mk_status_response "t1" "Requested"]
      = (wait_for_task_end "t1" []).map (fun p => (p.1, p.2 + 1)) :=
  ⟨⟨by decide, by decide, by decide⟩,
   wait_for_task_end_classification.2.2.2.1 "t1" [] "Requested"
     (by decide) (by decide) (by decide)⟩

/-- A response whose only child is named "TASK" in upper case, with the
target id and a Running status. -/
def resp_upper_task : Entity :=
  .mk "get_status_response" "" (some [("status", "200")])
    [.mk "TASK" "" (some [("id", "t1")]) [.mk "status" "Running" none []]]

/-- Claim C8, counterexample: the four polling operations do not share one
search.  task_status — the search of wait_for_task_delete — misses a
child named "TASK" that the case-insensitive search of the other waiters
finds, so wait_for_task_delete reports deletion (0) on a response that
still lists the task; the other waiters' search also accepts an id
attribute differing from the target in case, so the id comparison is not
plain equality; and task_status ignores the id attribute entirely,
finding a task whose id is not the target. -/
theorem shape_c_search_divergence :
    task_status resp_upper_task = none ∧
    find_run_state "t1" resp_upper_task.entities = .found "Running" ∧
    wait_for_task_delete "t1" [resp_upper_task] = some (0, 0) ∧
    find_run_state "t1" [Entity.mk "task" "" (some [("id", "T1")])
      [.mk "status" "Running" none []]] = .found "Running" ∧
    ("T1" : String) ≠ "t1" ∧
    task_status (.mk "get_status_response" "" (some [("status", "200")])
      [.mk "task" "" (some [("id", "other")])
        [.mk "status" "Running" none []]]) = some "Running" ∧
    ("other" : String) ≠ "t1" :=
  ⟨rfl, rfl, rfl, rfl, by decide, rfl, by decide⟩

/-- Claim C8, amended: wait_for_task_start, wait_for_task_end and
wait_for_task_stop search only the direct children for a tag equal to
"task" up to case with an id attribute equal to the target up to case,
stopping at the first match; wait_for_task_delete instead uses
task_status, which reads the status text of the first direct child named
exactly "task" (case-sensitively, with no id filtering), treats its
absence as the success signal (0), and otherwise sleeps and retries. -/
theorem shape_c_search_semantics :
    (∀ id child rest, strcasecmp_eq (entity_name child) "task" = false →
      find_run_state id (child :: rest) = find_run_state id rest) ∧
    (∀ id child rest tid,
      strcasecmp_eq (entity_name child) "task" = true →
      entity_attribute child "id" = some tid →
      strcasecmp_eq tid id = false →
      find_run_state id (child :: rest) = find_run_state id rest) ∧
    (∀ id child rest tid st,
      strcasecmp_eq (entity_name child) "task" = true →
      entity_attribute child "id" = some tid →
      strcasecmp_eq tid id = true →
      entity_child child "status" = some st →
      find_run_state id (child :: rest) = .found (entity_text st)) ∧
    (∀ e t, entity_child e "task" = some t →
      task_status e = (entity_child t "status").map entity_text) ∧
    (∀ e, entity_child e "task" = none → task_status e = none) ∧
    (∀ id e rest, task_status e = none →
      wait_for_task_delete id (e :: rest) = some (0, 0)) ∧
    (∀ id e rest r, task_status e = some r →
      wait_for_task_delete id (e :: rest)
        = (wait_for_task_delete id rest).map (fun p => (p.1, p.2 + 1))) := by
  refine ⟨?_, ?_, ?_, ?_, ?_, ?_, ?_⟩
  · intro id child rest h
    rw [find_run_state, h]
    simp
  · intro id child rest tid h h2 h3
    rw [find_run_state]
    simp [h, h2, h3]
  · intro id child rest tid st h h2 h3 h4
    rw [find_run_state]
    simp [h, h2, h3, h4]
  · intro e t h
    simp only [task_status, h]
    cases entity_child t "status" <;> rfl
  · intro e h
    simp only [task_status, h]
  · intro id e rest h
    simp only [wait_for_task_delete, h]
  · intro id e rest r h
    simp only [wait_for_task_delete, h]

/-- Witness for the amended C8: a child named "note" is skipped by the
task search, and a statusless response makes wait_for_task_delete return
success immediately. -/
theorem shape_c_search_semantics_witness :
    (strcasecmp_eq (entity_name (.mk "note" "" none [])) "task" = false ∧
      find_run_state "t1" [Entity.mk "note" "" none []]
        = find_run_state "t1" []) ∧
    (task_status (.mk "get_status_response" ""
        (some [("status", "200")]) []) = none ∧
      wait_for_task_delete "t1" [Entity.mk "get_status_response" ""
        (some [("status", "200")]) []] = some (0, 0)) :=
  ⟨⟨rfl, shape_c_search_semantics.1 "t1" (.mk "note" "" none []) [] rfl⟩,
   ⟨rfl, shape_c_search_semantics.2.2.2.2.2.1 "t1"
     (.mk "get_status_response" "" (some [("status", "200")]) []) [] rfl⟩⟩

/-- Claim C9: omp_get_certificates sends byte-for-byte the same request
string as omp_get_preferences, and the two differ only in the response
handling: omp_get_preferences returns 0 and hands over the entity for any
parsed response, while omp_get_certificates inspects the status
attribute. -/
theorem certificates_preferences_same_request :
    omp_get_certificates_request = omp_get_preferences_request ∧
    (∀ e, omp_get_preferences e = (0, some e)) ∧
    omp_get_certificates (.mk "get_preferences_response" ""
      (some [("status", "400")]) []) = (400, none) ∧
    omp_get_preferences (.mk "get_preferences_response" ""
        (some [("status", "400")]) [])
      = (0, some (.mk "get_preferences_response" ""
        (some [("status", "400")]) [])) :=
  ⟨rfl, fun _ => rfl, rfl, rfl⟩

/-- Claim C10: create_task and omp_create_config choose between encoding
and an empty rcfile field by the C-string length of the payload, not by
config_len: a payload whose first byte is NUL always produces an empty
rcfile field, whatever config_len is; when the C-string length is zero
config_len is never consulted; and only when encoding occurs does
config_len bound the encoded bytes. -/
theorem rcfile_field_strlen_decides :
    (∀ config config_len name comment, config.head? = some 0 →
      create_task_request config config_len name comment
        = "<create_task><rcfile></rcfile><name>" ++ name ++
          "</name><comment>" ++ comment ++ "</comment></create_task>") ∧
    (∀ config config_len name comment, config.head? = some 0 →
      omp_create_config_request name (some comment) config config_len
        = "<create_config><name>" ++ name ++ "</name><comment>" ++
          comment ++ "</comment><rcfile></rcfile></create_config>") ∧
    (∀ config l1 l2, c_strlen config = 0 →
      rcfile_field config l1 = rcfile_field config l2) ∧
    (∀ config config_len, c_strlen config ≠ 0 →
      rcfile_field config config_len
        = g_base64_encode (config.take config_len)) := by
  have hnul : ∀ (config : List ℕ), config.head? = some 0 →
      c_strlen config = 0 := by
    intro config h
    match config, h with
    | 0 :: tl, _ => simp [c_strlen]
  have hfield : ∀ (config : List ℕ) config_len, c_strlen config = 0 →
      rcfile_field config config_len = "" := by
    intro config config_len h
    rw [rcfile_field, if_neg (by simp [h])]
  refine ⟨?_, ?_, ?_, ?_⟩
  · intro config config_len name comment h
    rw [create_task_request, hfield config config_len (hnul config h)]
    rfl
  · intro config config_len name comment h
    rw [omp_create_config_request, hfield config config_len (hnul config h)]
    simp [String.append_assoc]
  · intro config l1 l2 h
    rw [hfield config l1 h, hfield config l2 h]
  · intro config config_len h
    rw [rcfile_field, if_pos (by simpa using h)]

/-- Witness for C10: the two-byte payload beginning with a NUL byte gives
an empty rcfile field in both requests even though config_len is 2. -/
theorem rcfile_field_strlen_decides_witness :
    ([0, 65].head? = some 0) ∧
    create_task_request [0, 65] 2 "n" "c"
      = "<create_task><rcfile></rcfile><name>" ++ "n" ++
        "</name><comment>" ++ "c" ++ "</comment></create_task>" ∧
    omp_create_config_request "n" (some "c") [0, 65] 2
      = "<create_config><name>" ++ "n" ++ "</name><comment>" ++
        "c" ++ "</comment><rcfile></rcfile></create_config>" :=
  ⟨rfl, rcfile_field_strlen_decides.1 [0, 65] 2 "n" "c" rfl,
   rcfile_field_strlen_decides.2.1 [0, 65] 2 "n" "c" rfl⟩

end GvmLibs
